import Mathlib

/-!
Verification of the frontend filter/notification state machine of the
stock-scanner dashboard: the `AppContext` reducer, the data-fetch
watchers, the background poll cycle and the scan trigger.

The definitions below are shallow embeddings of the TypeScript sources:
  * `frontend/src/context/types.ts` (state and action vocabulary),
  * `frontend/src/context/reducer.ts` (`initialState`, `reducer`),
  * `frontend/src/context/AppContext.tsx` (the four watchers and
    `createListingParams`),
  * `frontend/src/components/ScanButton.tsx` (`handleExchangeScan`),
  * `frontend/src/api/client.ts` (the `Listing` / `Exchange` /
    `Statistics` records).
TypeScript `number` fields are modelled as `Int`, nullable fields as
`Option`, and the asynchronous watchers as pure functions from the fetch
outcome (`Except`) to the list of actions they dispatch, applied to a
state by folding the reducer.
-/

/-- The `Listing` record of `api/client.ts`.  Optional fields of the
interface become `Option`. -/
structure Listing where
  id : Int
  name : String
  symbol : String
  listing_date : String
  lot_size : Int
  status : String
  exchange_id : Int
  exchange_code : Option String
  url : Option String
  listing_detail_url : Option String
  security_type : String
deriving DecidableEq

/-- The `Exchange` record of `api/client.ts`. -/
structure Exchange where
  id : Int
  name : String
  code : String
  url : String
deriving DecidableEq

/-- One entry of `Statistics.exchange_stats` in `api/client.ts`. -/
structure ExchangeStat where
  name : String
  code : String
  total_listings : Int
deriving DecidableEq

/-- One entry of `Statistics.daily_stats` in `api/client.ts`. -/
structure DailyStat where
  date : String
  count : Int
deriving DecidableEq

/-- The `Statistics` record of `api/client.ts`. -/
structure Statistics where
  exchange_stats : List ExchangeStat
  daily_stats : List DailyStat
deriving DecidableEq

/-- The `AppState` record of `context/types.ts`.  `X | null` fields
become `Option X`. -/
structure AppState where
  listings : List Listing
  exchanges : List Exchange
  statistics : Option Statistics
  selectedExchange : String
  days : Int
  startDate : Option String
  endDate : Option String
  isPaginationMode : Bool
  isLoadingListings : Bool
  isLoadingExchanges : Bool
  isLoadingStatistics : Bool
  isScanning : Bool
  showStatistics : Bool
  error : Option String
  hasNewListings : Bool
  notificationOpen : Bool
  newListingsCount : Int
  previousListingsCount : Int
deriving DecidableEq

/-- The `ActionType` enum of `context/types.ts`. -/
inductive ActionType where
  | SET_LISTINGS
  | SET_EXCHANGES
  | SET_STATISTICS
  | SET_SELECTED_EXCHANGE
  | SET_DAYS
  | SET_DATE_RANGE
  | SET_PAGINATION_MODE
  | SET_LOADING_LISTINGS
  | SET_LOADING_EXCHANGES
  | SET_LOADING_STATISTICS
  | SET_SCANNING
  | TOGGLE_STATISTICS
  | SET_ERROR
  | CLEAR_ERROR
  | SET_NEW_LISTINGS
  | SET_NOTIFICATION_OPEN
  | ACKNOWLEDGE_NEW_LISTINGS
deriving DecidableEq

/-- The `AppAction` tagged union of `context/types.ts`, one constructor
per action interface, named after the action creators of
`context/actions.ts`. -/
inductive AppAction where
  | setListings (payload : List Listing)
  | setExchanges (payload : List Exchange)
  | setStatistics (payload : Statistics)
  | setSelectedExchange (payload : String)
  | setDays (payload : Int)
  | setDateRange (startDate : String) (endDate : String)
  | setPaginationMode (payload : Bool)
  | setLoadingListings (payload : Bool)
  | setLoadingExchanges (payload : Bool)
  | setLoadingStatistics (payload : Bool)
  | setScanning (payload : Bool)
  | toggleStatistics
  | setError (payload : String)
  | clearError
  | setNewListings (hasNewListings : Bool) (newListingsCount : Int)
  | setNotificationOpen (payload : Bool)
  | acknowledgeNewListings
deriving DecidableEq

/-- The `type` discriminant field of an `AppAction` value. -/
def AppAction.type : AppAction → ActionType
  | .setListings _ => .SET_LISTINGS
  | .setExchanges _ => .SET_EXCHANGES
  | .setStatistics _ => .SET_STATISTICS
  | .setSelectedExchange _ => .SET_SELECTED_EXCHANGE
  | .setDays _ => .SET_DAYS
  | .setDateRange _ _ => .SET_DATE_RANGE
  | .setPaginationMode _ => .SET_PAGINATION_MODE
  | .setLoadingListings _ => .SET_LOADING_LISTINGS
  | .setLoadingExchanges _ => .SET_LOADING_EXCHANGES
  | .setLoadingStatistics _ => .SET_LOADING_STATISTICS
  | .setScanning _ => .SET_SCANNING
  | .toggleStatistics => .TOGGLE_STATISTICS
  | .setError _ => .SET_ERROR
  | .clearError => .CLEAR_ERROR
  | .setNewListings _ _ => .SET_NEW_LISTINGS
  | .setNotificationOpen _ => .SET_NOTIFICATION_OPEN
  | .acknowledgeNewListings => .ACKNOWLEDGE_NEW_LISTINGS

/-- `initialState` of `context/reducer.ts`. -/
def initialState : AppState :=
  { listings := []
    exchanges := []
    statistics := none
    selectedExchange := ""
    days := 30
    startDate := none
    endDate := none
    isPaginationMode := false
    isLoadingListings := false
    isLoadingExchanges := false
    isLoadingStatistics := false
    isScanning := false
    showStatistics := true
    error := none
    hasNewListings := false
    notificationOpen := false
    newListingsCount := 0
    previousListingsCount := 0 }

/-- The `reducer` of `context/reducer.ts`: one case per `ActionType`,
each producing `{ ...state, <updated fields> }`.  The union is
exhaustive, so the `default: return state` branch is unreachable. -/
def reducer (state : AppState) (action : AppAction) : AppState :=
  match action with
  | .setListings payload =>
      { state with
        listings := payload
        previousListingsCount := (state.listings.length : Int) }
  | .setExchanges payload => { state with exchanges := payload }
  | .setStatistics payload => { state with statistics := some payload }
  | .setSelectedExchange payload => { state with selectedExchange := payload }
  | .setDays payload =>
      { state with
        days := payload
        isPaginationMode := false
        startDate := none
        endDate := none }
  | .setDateRange startDate endDate =>
      { state with
        startDate := some startDate
        endDate := some endDate
        isPaginationMode := true
        days := 0 }
  | .setPaginationMode payload => { state with isPaginationMode := payload }
  | .setLoadingListings payload => { state with isLoadingListings := payload }
  | .setLoadingExchanges payload => { state with isLoadingExchanges := payload }
  | .setLoadingStatistics payload => { state with isLoadingStatistics := payload }
  | .setScanning payload => { state with isScanning := payload }
  | .toggleStatistics => { state with showStatistics := !state.showStatistics }
  | .setError payload => { state with error := some payload }
  | .clearError => { state with error := none }
  | .setNewListings hasNewListings newListingsCount =>
      { state with
        hasNewListings := hasNewListings
        newListingsCount := newListingsCount
        notificationOpen := hasNewListings }
  | .setNotificationOpen payload => { state with notificationOpen := payload }
  | .acknowledgeNewListings =>
      { state with
        hasNewListings := false
        notificationOpen := false }

/-- Fold a list of dispatched actions through the reducer, the way
React's `dispatch` applies them in order to the current state. -/
def dispatchAll (state : AppState) (acts : List AppAction) : AppState :=
  acts.foldl reducer state

/-- A state reachable from `initialState` by some sequence of dispatched
actions. -/
def Reachable (s : AppState) : Prop :=
  ∃ acts : List AppAction, s = dispatchAll initialState acts

/-- The TypeScript test `x !== undefined && x !== null && x !== ""`
applied to a nullable string, as used by `createListingParams`. -/
def nonEmptyOpt : Option String → Bool
  | some s => !(s == "")
  | none => false

/-- The query-parameter record built by `createListingParams` in
`context/AppContext.tsx`: a `Record<string, string | number>` whose
possible keys are `start_date`, `end_date`, `days` and `exchange_code`;
an absent key is `none`. -/
structure ListingParams where
  start_date : Option String
  end_date : Option String
  days : Option Int
  exchange_code : Option String
deriving DecidableEq

/-- `createListingParams` of `context/AppContext.tsx`: in pagination
mode with both dates present and non-empty it sends
`{start_date, end_date}`, otherwise `{days}`; `exchange_code` is added
when `selectedExchange` is truthy (non-empty). -/
def createListingParams (isPaginationMode : Bool) (startDate : Option String)
    (endDate : Option String) (days : Int) (selectedExchange : String) :
    ListingParams :=
  let params : ListingParams :=
    { start_date := none, end_date := none, days := none, exchange_code := none }
  let params :=
    if isPaginationMode && nonEmptyOpt startDate && nonEmptyOpt endDate then
      { params with start_date := startDate, end_date := endDate }
    else
      { params with days := some days }
  if selectedExchange == "" then params
  else { params with exchange_code := some selectedExchange }

/-- The listings query issued by the `useFetchListings` watcher, which
calls `createListingParams` on the current filter slice of the state. -/
def useFetchListingsParams (state : AppState) : ListingParams :=
  createListingParams state.isPaginationMode state.startDate state.endDate
    state.days state.selectedExchange

/-- The listings query issued by one background-poll tick:
`fetchListingsForNotification` destructures
`days, startDate, endDate, isPaginationMode, selectedExchange` from the
state and passes them to `createListingParams`. -/
def fetchListingsForNotificationParams (state : AppState) : ListingParams :=
  createListingParams state.isPaginationMode state.startDate state.endDate
    state.days state.selectedExchange

/-- The actions dispatched by one successful background-poll tick of
`fetchListingsForNotification` in `context/AppContext.tsx`, given the
fetched `listingsData`: when `previousListingsCount > 0 && currentCount
> previousListingsCount` it dispatches `setNewListings(true, newCount)`
and then `setListings(listingsData)`; otherwise nothing. -/
def fetchListingsForNotificationDispatches (state : AppState)
    (listingsData : List Listing) : List AppAction :=
  let currentCount : Int := (listingsData.length : Int)
  if state.previousListingsCount > 0 ∧ currentCount > state.previousListingsCount
  then
    let newCount := currentCount - state.previousListingsCount
    [AppAction.setNewListings true newCount, AppAction.setListings listingsData]
  else []

/-- One full background-poll tick including the failure branch: a failed
fetch is caught and only logged (`devError`), dispatching nothing. -/
def fetchListingsForNotificationRun (state : AppState)
    (result : Except Unit (List Listing)) : List AppAction :=
  match result with
  | Except.ok listingsData => fetchListingsForNotificationDispatches state listingsData
  | Except.error _ => []

/-- The actions dispatched by one run of the `useFetchExchanges`
watcher, given the fetch outcome: `setLoadingExchanges(true)`, then
`setExchanges` on success or `setError("Failed to load exchanges")` on
failure, then `setLoadingExchanges(false)` from the `finally` block. -/
def fetchExchangesDispatches (result : Except Unit (List Exchange)) :
    List AppAction :=
  AppAction.setLoadingExchanges true ::
    (match result with
      | Except.ok exchangesData => [AppAction.setExchanges exchangesData]
      | Except.error _ => [AppAction.setError "Failed to load exchanges"]) ++
    [AppAction.setLoadingExchanges false]

/-- The actions dispatched by one run of the `useFetchListings` watcher,
given the fetch outcome: `setLoadingListings(true)`, then on success
`setListings` followed by `setNewListings(false, 0)` (notification reset
on filter change) or on failure `setError("Failed to load listings")`,
then `setLoadingListings(false)` from the `finally` block. -/
def fetchListingsDispatches (result : Except Unit (List Listing)) :
    List AppAction :=
  AppAction.setLoadingListings true ::
    (match result with
      | Except.ok listingsData =>
          [AppAction.setListings listingsData, AppAction.setNewListings false 0]
      | Except.error _ => [AppAction.setError "Failed to load listings"]) ++
    [AppAction.setLoadingListings false]

/-- The actions dispatched by one run of the `useFetchStatistics`
watcher: the fetch happens only when `isPaginationMode` is false, a
failure is converted to `setError("Failed to load statistics")`, and
the `finally` block always dispatches `setLoadingStatistics(false)`. -/
def fetchStatisticsDispatches (isPaginationMode : Bool)
    (result : Except Unit Statistics) : List AppAction :=
  if isPaginationMode then [AppAction.setLoadingStatistics false]
  else
    match result with
    | Except.ok statsData =>
        [AppAction.setLoadingStatistics true, AppAction.setStatistics statsData,
          AppAction.setLoadingStatistics false]
    | Except.error _ =>
        [AppAction.setLoadingStatistics true,
          AppAction.setError "Failed to load statistics",
          AppAction.setLoadingStatistics false]

/-- The actions dispatched by a successful `handleExchangeScan` in
`components/ScanButton.tsx`, given the re-fetched `listingsData` and the
refreshed `statsData`: `setScanning(true)`, `clearError`, then
`setNewListings(true, diff)` exactly when `listingsData.length >
previousListingsCount` (note: no `previousListingsCount > 0` guard
here), then `setListings`, `setStatistics`, and `setScanning(false)`
from the `finally` block. -/
def handleExchangeScanDispatches (state : AppState)
    (listingsData : List Listing) (statsData : Statistics) : List AppAction :=
  [AppAction.setScanning true, AppAction.clearError] ++
    (if (listingsData.length : Int) > state.previousListingsCount then
      [AppAction.setNewListings true
        ((listingsData.length : Int) - state.previousListingsCount)]
    else []) ++
    [AppAction.setListings listingsData, AppAction.setStatistics statsData,
      AppAction.setScanning false]

/-- Whether a dispatched action list raises the new-listings
notification, i.e. contains `setNewListings` with `hasNewListings =
true`. -/
def raisesNewListings (acts : List AppAction) : Bool :=
  acts.any fun a =>
    match a with
    | AppAction.setNewListings true _ => true
    | _ => false

/-- A sample listing record, used to build concrete witness inputs. -/
def sampleListing : Listing :=
  { id := 1
    name := "ACME Corp"
    symbol := "ACME"
    listing_date := "2024-01-02"
    lot_size := 100
    status := "New Listing"
    exchange_id := 1
    exchange_code := some "HKEX"
    url := none
    listing_detail_url := none
    security_type := "Equity" }

/-- A sample statistics record, used to build concrete witness inputs. -/
def sampleStatistics : Statistics :=
  { exchange_stats := [{ name := "HKEX", code := "HKEX", total_listings := 3 }]
    daily_stats := [{ date := "2024-01-02", count := 3 }] }


/-! ## Filter-mode exclusivity invariant (claim C1) -/

/-- The exclusivity invariant of the spec: `isPaginationMode = true` iff
`days = 0` iff `startDate` and `endDate` are both non-null. -/
def filterModeInv (s : AppState) : Prop :=
  ((s.isPaginationMode = true) ↔ (s.days = 0))
  ∧ ((s.isPaginationMode = true) ↔ (s.startDate ≠ none ∧ s.endDate ≠ none))

instance (s : AppState) : Decidable (filterModeInv s) := by
  unfold filterModeInv
  infer_instance

/-- Actions that maintain the filter-mode exclusivity:
`SET_PAGINATION_MODE` sets only the flag, and `SET_DAYS` with payload 0
leaves `days = 0` while forcing `isPaginationMode = false`, so those two
are excluded. -/
def filterSafeAction (a : AppAction) : Bool :=
  match a with
  | AppAction.setPaginationMode _ => false
  | AppAction.setDays n => !(n == 0)
  | _ => true

theorem filterModeInv_reducer (s : AppState) (a : AppAction)
    (hs : filterModeInv s) (ha : filterSafeAction a = true) :
    filterModeInv (reducer s a) := by
  cases a <;> simp_all [filterModeInv, reducer, filterSafeAction] <;>
    exact hs.1.symm.trans hs.2

theorem filterModeInv_dispatchAll (acts : List AppAction) :
    ∀ s : AppState, filterModeInv s →
      (∀ a ∈ acts, filterSafeAction a = true) →
      filterModeInv (dispatchAll s acts) := by
  induction acts with
  | nil =>
      intro s hs _
      simpa [dispatchAll] using hs
  | cons a rest ih =>
      intro s hs h
      have ha : filterModeInv (reducer s a) :=
        filterModeInv_reducer s a hs (h a (by simp))
      have hrest := ih (reducer s a) ha (fun b hb => h b (by simp [hb]))
      simpa [dispatchAll] using hrest

/-- Claim C1 is false as stated: the state reached from `initialState`
by dispatching `SET_PAGINATION_MODE(true)` is reachable, yet it has
`isPaginationMode = true` with `days = 30` and both dates null, so the
exclusivity invariant does not hold on all reachable states and
`SET_PAGINATION_MODE` does not enforce it. -/
theorem C1_counterexample :
    Reachable (reducer initialState (AppAction.setPaginationMode true))
    ∧ ¬ filterModeInv (reducer initialState (AppAction.setPaginationMode true)) :=
  ⟨⟨[AppAction.setPaginationMode true], rfl⟩, by decide⟩

/-- Claim C1 (amended): for every state reachable from the initial
state by reducer actions among which `SET_PAGINATION_MODE` never occurs
and every `SET_DAYS` payload is nonzero, `isPaginationMode` is true iff
`days = 0` iff `startDate` and `endDate` are both non-null; the reducer
enforces this exclusivity on `SET_DAYS` and `SET_DATE_RANGE`, but
`SET_PAGINATION_MODE` sets only the flag and can break it. -/
theorem C1_filter_exclusivity (acts : List AppAction)
    (h : ∀ a ∈ acts, filterSafeAction a = true) :
    filterModeInv (dispatchAll initialState acts) :=
  filterModeInv_dispatchAll acts initialState (by decide) h

/-- Concrete run of `C1_filter_exclusivity` on a safe action sequence. -/
theorem C1_filter_exclusivity_witness :
    filterModeInv (dispatchAll initialState
      [AppAction.setDays 7,
        AppAction.setDateRange "2024-01-01" "2024-01-31",
        AppAction.setListings [sampleListing]]) :=
  C1_filter_exclusivity
    [AppAction.setDays 7,
      AppAction.setDateRange "2024-01-01" "2024-01-31",
      AppAction.setListings [sampleListing]]
    (by decide)

/-! ## Background-poll growth detection (claim C2) -/

/-- Claim C2: on a background-poll tick with fetched result
`listingsData`, if `previousListingsCount > 0` and the fetched count
strictly exceeds it, the tick dispatches
`SET_NEW_LISTINGS(true, currentCount - previousListingsCount)` followed
by `SET_LISTINGS(listingsData)`; otherwise it dispatches nothing and the
fetched data is discarded. -/
theorem C2_poll_tick_dispatches (state : AppState) (listingsData : List Listing) :
    (state.previousListingsCount > 0 →
      (listingsData.length : Int) > state.previousListingsCount →
      fetchListingsForNotificationDispatches state listingsData =
        [AppAction.setNewListings true
            ((listingsData.length : Int) - state.previousListingsCount),
          AppAction.setListings listingsData])
    ∧ (¬(state.previousListingsCount > 0
          ∧ (listingsData.length : Int) > state.previousListingsCount) →
      fetchListingsForNotificationDispatches state listingsData = []) := by
  constructor
  · intro h1 h2
    simp [fetchListingsForNotificationDispatches, h1, h2]
  · intro h
    simp only [fetchListingsForNotificationDispatches]
    rw [if_neg h]

/-- Concrete runs of `C2_poll_tick_dispatches`: growth from baseline 5
to 8 dispatches the pair of actions; baseline 0 with count 7 and
baseline 5 with count 5 dispatch nothing. -/
theorem C2_poll_tick_dispatches_witness :
    fetchListingsForNotificationDispatches
        { initialState with previousListingsCount := 5 }
        (List.replicate 8 sampleListing) =
      [AppAction.setNewListings true 3,
        AppAction.setListings (List.replicate 8 sampleListing)]
    ∧ fetchListingsForNotificationDispatches initialState
        (List.replicate 7 sampleListing) = []
    ∧ fetchListingsForNotificationDispatches
        { initialState with previousListingsCount := 5 }
        (List.replicate 5 sampleListing) = [] := by
  refine ⟨?_, ?_, ?_⟩
  · have h := (C2_poll_tick_dispatches
      { initialState with previousListingsCount := 5 }
      (List.replicate 8 sampleListing)).1 (by decide) (by decide)
    exact h.trans (by decide)
  · exact (C2_poll_tick_dispatches initialState
      (List.replicate 7 sampleListing)).2 (by decide)
  · exact (C2_poll_tick_dispatches
      { initialState with previousListingsCount := 5 }
      (List.replicate 5 sampleListing)).2 (by decide)

/-! ## SET_LISTINGS baseline capture (claim C3) -/

/-- Claim C3: `SET_LISTINGS(newListings)` sets `listings = newListings`
and sets `previousListingsCount` to the length of the old
`state.listings`, captured before replacement; applying it with a
5-element list and then an 8-element list leaves
`previousListingsCount = 5`. -/
theorem C3_setListings_baseline (state : AppState) (newListings : List Listing) :
    (reducer state (AppAction.setListings newListings)).listings = newListings
    ∧ (reducer state (AppAction.setListings newListings)).previousListingsCount =
        (state.listings.length : Int)
    ∧ ∀ l5 l8 : List Listing, l5.length = 5 → l8.length = 8 →
        (reducer (reducer state (AppAction.setListings l5))
          (AppAction.setListings l8)).previousListingsCount = 5 := by
  refine ⟨rfl, rfl, ?_⟩
  intro l5 l8 h5 _
  simp [reducer, h5]

/-- Concrete run of `C3_setListings_baseline` on 5- and 8-element
lists. -/
theorem C3_setListings_baseline_witness :
    (reducer (reducer initialState
        (AppAction.setListings (List.replicate 5 sampleListing)))
      (AppAction.setListings (List.replicate 8 sampleListing))).previousListingsCount = 5 :=
  (C3_setListings_baseline initialState []).2.2
    (List.replicate 5 sampleListing) (List.replicate 8 sampleListing)
    (by simp) (by simp)

/-! ## SET_DAYS / SET_DATE_RANGE exclusivity enforcement (claim C6) -/

/-- Claim C6: `SET_DAYS(n)` sets `days = n`, forces
`isPaginationMode = false` and clears both dates to null;
`SET_DATE_RANGE(start, end)` sets both dates, forces
`isPaginationMode = true` and sets `days = 0`; in particular
`SET_DAYS(30)` yields `isPaginationMode = false`, null dates and
`days = 30` from any state, including pagination mode. -/
theorem C6_filter_actions (state : AppState) (n : Int) (startD endD : String) :
    (reducer state (AppAction.setDays n)).days = n
    ∧ (reducer state (AppAction.setDays n)).isPaginationMode = false
    ∧ (reducer state (AppAction.setDays n)).startDate = none
    ∧ (reducer state (AppAction.setDays n)).endDate = none
    ∧ (reducer state (AppAction.setDateRange startD endD)).startDate = some startD
    ∧ (reducer state (AppAction.setDateRange startD endD)).endDate = some endD
    ∧ (reducer state (AppAction.setDateRange startD endD)).isPaginationMode = true
    ∧ (reducer state (AppAction.setDateRange startD endD)).days = 0
    ∧ (reducer state (AppAction.setDays 30)).isPaginationMode = false
    ∧ (reducer state (AppAction.setDays 30)).startDate = none
    ∧ (reducer state (AppAction.setDays 30)).endDate = none
    ∧ (reducer state (AppAction.setDays 30)).days = 30 :=
  ⟨rfl, rfl, rfl, rfl, rfl, rfl, rfl, rfl, rfl, rfl, rfl, rfl⟩

/-! ## SET_NEW_LISTINGS banner coupling (claim C9) -/

/-- Claim C9: `SET_NEW_LISTINGS(has, count)` sets `hasNewListings = has`,
`newListingsCount = count`, and `notificationOpen = has`; the
banner-open flag always equals the `has` argument. -/
theorem C9_setNewListings_fields (state : AppState) (has : Bool) (count : Int) :
    (reducer state (AppAction.setNewListings has count)).hasNewListings = has
    ∧ (reducer state (AppAction.setNewListings has count)).newListingsCount = count
    ∧ (reducer state (AppAction.setNewListings has count)).notificationOpen = has :=
  ⟨rfl, rfl, rfl⟩

/-! ## Watcher failure handling (claim C7) -/

/-- Claim C7: a failing fetch in the exchange, listings, or statistics
loader writes only that loader's fixed string into `state.error` and
leaves the previously held `listings`, `exchanges` and `statistics`
unchanged; a failure inside the background poll dispatches no action at
all, so the state is exactly unchanged. -/
theorem C7_failure_handling (s : AppState) :
    (dispatchAll s (fetchExchangesDispatches (Except.error ()))).error =
        some "Failed to load exchanges"
    ∧ (dispatchAll s (fetchExchangesDispatches (Except.error ()))).listings = s.listings
    ∧ (dispatchAll s (fetchExchangesDispatches (Except.error ()))).exchanges = s.exchanges
    ∧ (dispatchAll s (fetchExchangesDispatches (Except.error ()))).statistics = s.statistics
    ∧ (dispatchAll s (fetchListingsDispatches (Except.error ()))).error =
        some "Failed to load listings"
    ∧ (dispatchAll s (fetchListingsDispatches (Except.error ()))).listings = s.listings
    ∧ (dispatchAll s (fetchListingsDispatches (Except.error ()))).exchanges = s.exchanges
    ∧ (dispatchAll s (fetchListingsDispatches (Except.error ()))).statistics = s.statistics
    ∧ (dispatchAll s (fetchStatisticsDispatches false (Except.error ()))).error =
        some "Failed to load statistics"
    ∧ (dispatchAll s (fetchStatisticsDispatches false (Except.error ()))).listings = s.listings
    ∧ (dispatchAll s (fetchStatisticsDispatches false (Except.error ()))).exchanges = s.exchanges
    ∧ (dispatchAll s (fetchStatisticsDispatches false (Except.error ()))).statistics = s.statistics
    ∧ dispatchAll s (fetchListingsForNotificationRun s (Except.error ())) = s :=
  ⟨rfl, rfl, rfl, rfl, rfl, rfl, rfl, rfl, rfl, rfl, rfl, rfl, rfl⟩

/-! ## ACKNOWLEDGE_NEW_LISTINGS frame (claim C8) -/

/-- Claim C8: `ACKNOWLEDGE_NEW_LISTINGS` sets `hasNewListings = false`
and `notificationOpen = false` and leaves every other field — in
particular `newListingsCount` and `previousListingsCount` — unchanged;
moreover every action whose type is neither `SET_LISTINGS` nor
`SET_NEW_LISTINGS` leaves `previousListingsCount` unchanged. -/
theorem C8_acknowledge_frame (s : AppState) (a : AppAction)
    (h1 : a.type ≠ ActionType.SET_LISTINGS)
    (h2 : a.type ≠ ActionType.SET_NEW_LISTINGS) :
    reducer s AppAction.acknowledgeNewListings =
      { s with hasNewListings := false, notificationOpen := false }
    ∧ (reducer s AppAction.acknowledgeNewListings).newListingsCount = s.newListingsCount
    ∧ (reducer s AppAction.acknowledgeNewListings).previousListingsCount =
        s.previousListingsCount
    ∧ (reducer s a).previousListingsCount = s.previousListingsCount := by
  refine ⟨rfl, rfl, rfl, ?_⟩
  cases a <;> first
    | rfl
    | exact absurd rfl h1

/-- Concrete run of `C8_acknowledge_frame` with `TOGGLE_STATISTICS` as
the non-listings, non-notification action. -/
theorem C8_acknowledge_frame_witness :
    reducer initialState AppAction.acknowledgeNewListings =
      { initialState with hasNewListings := false, notificationOpen := false }
    ∧ (reducer initialState AppAction.acknowledgeNewListings).newListingsCount =
        initialState.newListingsCount
    ∧ (reducer initialState AppAction.acknowledgeNewListings).previousListingsCount =
        initialState.previousListingsCount
    ∧ (reducer initialState AppAction.toggleStatistics).previousListingsCount =
        initialState.previousListingsCount :=
  C8_acknowledge_frame initialState AppAction.toggleStatistics (by decide) (by decide)

/-! ## Date-range round trip (claim C10) -/

/-- Claim C10: from a days-mode state (`isPaginationMode = false`, both
dates null, `days = d`), dispatching `SET_DATE_RANGE(start, end)` and
then `SET_DAYS(d)` restores the exact original state. -/
theorem C10_date_range_roundtrip (s : AppState) (d : Int) (startD endD : String)
    (h1 : s.isPaginationMode = false) (h2 : s.startDate = none)
    (h3 : s.endDate = none) (h4 : s.days = d) :
    reducer (reducer s (AppAction.setDateRange startD endD)) (AppAction.setDays d) = s := by
  cases s
  simp_all [reducer]

/-- Concrete run of `C10_date_range_roundtrip` from the initial state
with its day count of 30. -/
theorem C10_date_range_roundtrip_witness :
    reducer (reducer initialState (AppAction.setDateRange "2024-01-01" "2024-01-31"))
      (AppAction.setDays 30) = initialState :=
  C10_date_range_roundtrip initialState 30 "2024-01-01" "2024-01-31" rfl rfl rfl rfl

/-! ## Background-poll query parameters (claim C4) -/

/-- Claim C4 is false as stated: in the reachable pagination-mode state
obtained by dispatching `SET_DATE_RANGE("2024-01-01", "2024-01-31")`,
the background poll's query carries `start_date` and `end_date` and no
`days` key — the poll does not ignore pagination mode. -/
theorem C4_counterexample :
    (fetchListingsForNotificationParams
        (reducer initialState (AppAction.setDateRange "2024-01-01" "2024-01-31"))).start_date =
      some "2024-01-01"
    ∧ (fetchListingsForNotificationParams
        (reducer initialState (AppAction.setDateRange "2024-01-01" "2024-01-31"))).end_date =
      some "2024-01-31"
    ∧ (fetchListingsForNotificationParams
        (reducer initialState (AppAction.setDateRange "2024-01-01" "2024-01-31"))).days =
      none := by
  decide

/-- Claim C4 (amended): the background poll builds its listings query
from the full current filter state through `createListingParams`,
exactly as the listings-loader watcher does: when `isPaginationMode` is
true with both dates non-null and non-empty the query carries
`{start_date, end_date}` and no `days`; otherwise it carries `{days}`
and no dates; `exchange_code` is added exactly when `selectedExchange`
is non-empty. -/
theorem C4_poll_params (s : AppState) :
    fetchListingsForNotificationParams s = useFetchListingsParams s
    ∧ (s.isPaginationMode = true → nonEmptyOpt s.startDate = true →
        nonEmptyOpt s.endDate = true →
        (fetchListingsForNotificationParams s).start_date = s.startDate
        ∧ (fetchListingsForNotificationParams s).end_date = s.endDate
        ∧ (fetchListingsForNotificationParams s).days = none)
    ∧ ((s.isPaginationMode && nonEmptyOpt s.startDate && nonEmptyOpt s.endDate) = false →
        (fetchListingsForNotificationParams s).start_date = none
        ∧ (fetchListingsForNotificationParams s).end_date = none
        ∧ (fetchListingsForNotificationParams s).days = some s.days)
    ∧ (fetchListingsForNotificationParams s).exchange_code =
        (if s.selectedExchange = "" then none else some s.selectedExchange) := by
  refine ⟨rfl, ?_, ?_, ?_⟩
  · intro h1 h2 h3
    simp only [fetchListingsForNotificationParams, createListingParams, h1, h2, h3,
      Bool.and_self, Bool.true_and, if_true]
    by_cases he : s.selectedExchange == ""
    · simp [he]
    · simp [he]
  · intro h
    simp only [fetchListingsForNotificationParams, createListingParams, h, Bool.false_eq_true,
      if_false]
    by_cases he : s.selectedExchange == ""
    · simp [he]
    · simp [he]
  · simp only [fetchListingsForNotificationParams, createListingParams]
    by_cases he : s.selectedExchange == ""
    · simp only [he, if_true]
      split <;> simp_all
    · simp only [he, if_false]
      split <;> simp_all

/-- Concrete runs of `C4_poll_params`: in a reachable pagination-mode
state the poll query has no `days` key, and in the initial days-mode
state it has `days = 30` and no dates. -/
theorem C4_poll_params_witness :
    (fetchListingsForNotificationParams
        (reducer initialState (AppAction.setDateRange "2024-03-01" "2024-03-31"))).days = none
    ∧ (fetchListingsForNotificationParams initialState).days = some 30
    ∧ (fetchListingsForNotificationParams initialState).start_date = none := by
  refine ⟨?_, ?_, ?_⟩
  · exact ((C4_poll_params
      (reducer initialState (AppAction.setDateRange "2024-03-01" "2024-03-31"))).2.1
      (by decide) (by decide) (by decide)).2.2
  · exact (((C4_poll_params initialState).2.2.1 (by decide)).2.2).trans (by decide)
  · exact ((C4_poll_params initialState).2.2.1 (by decide)).1

/-! ## Scan trigger vs background poll growth check (claim C5) -/

/-- Claim C5 is false as stated: after a scan from the initial state
(`previousListingsCount = 0`) that re-fetches one listing, the scan
path raises `SET_NEW_LISTINGS(true, _)` even though the poll's predicate
`previousListingsCount > 0 ∧ count > previousListingsCount` is false —
the two code paths do not implement the same check. -/
theorem C5_counterexample :
    raisesNewListings
        (handleExchangeScanDispatches initialState [sampleListing] sampleStatistics) = true
    ∧ ¬(initialState.previousListingsCount > 0
        ∧ (([sampleListing] : List Listing).length : Int) >
            initialState.previousListingsCount) := by
  constructor
  · decide
  · decide

/-- Claim C5 (amended): the scan trigger raises `SET_NEW_LISTINGS`
exactly when the re-fetched count strictly exceeds
`previousListingsCount`, without the poll's `previousListingsCount > 0`
guard; whenever `previousListingsCount > 0` the two code paths agree,
but at `previousListingsCount = 0` the scan notifies on growth while the
poll does not. -/
theorem C5_scan_vs_poll (s : AppState) (listingsData : List Listing)
    (statsData : Statistics) :
    (raisesNewListings (handleExchangeScanDispatches s listingsData statsData) = true
      ↔ (listingsData.length : Int) > s.previousListingsCount)
    ∧ (s.previousListingsCount > 0 →
        raisesNewListings (handleExchangeScanDispatches s listingsData statsData) =
          raisesNewListings (fetchListingsForNotificationDispatches s listingsData)) := by
  constructor
  · by_cases hb : (listingsData.length : Int) > s.previousListingsCount
    · simp [raisesNewListings, handleExchangeScanDispatches, hb]
    · simp [raisesNewListings, handleExchangeScanDispatches, hb]
  · intro hp
    by_cases hb : (listingsData.length : Int) > s.previousListingsCount
    · simp [raisesNewListings, handleExchangeScanDispatches,
        fetchListingsForNotificationDispatches, hb, hp]
    · simp [raisesNewListings, handleExchangeScanDispatches,
        fetchListingsForNotificationDispatches, hb, hp]

/-- Concrete run of `C5_scan_vs_poll`: with baseline 2 and a 3-element
re-fetch, the scan path and the poll path agree on raising the
notification. -/
theorem C5_scan_vs_poll_witness :
    raisesNewListings
        (handleExchangeScanDispatches { initialState with previousListingsCount := 2 }
          (List.replicate 3 sampleListing) sampleStatistics) =
      raisesNewListings
        (fetchListingsForNotificationDispatches
          { initialState with previousListingsCount := 2 }
          (List.replicate 3 sampleListing)) :=
  (C5_scan_vs_poll { initialState with previousListingsCount := 2 }
    (List.replicate 3 sampleListing) sampleStatistics).2 (by decide)
